import Mathlib

set_option linter.unusedVariables false

/-!
Verification of the Sudeep-Browser search pipeline (`src/crew/sudeep_crew.py`).

The Python module implements a two-branch fallback pipeline:
a simulated structured lookup (`_text_extract_json`), a live search
provider fallback (DDGS), a string cleaner (`_clean_result_string`),
an LLM translator (`translate_results`), a comment generator
(`generate_comment`) and the orchestrator (`kickoff`).

Python strings are modelled as Lean `String`; the behaviours of the
external backends (DDGS search, LLM completion) and of the configured
credential are passed in as explicit parameters, and the places where
the Python code catches an exception from a backend are modelled by an
explicit `raise` constructor of the backend-outcome type.  Calls to a
backend are recorded in a boolean field of the result so that claims of
the form "the provider is (not) consulted" are statable.
-/

/-- ASCII whitespace recognised by Python's `str.strip()`. -/
def isWs (c : Char) : Bool :=
  c == ' ' || c == '\t' || c == '\n' || c == '\r' || c == '\x0b' || c == '\x0c'

/-- `str.strip()` on the character list: drop whitespace at both ends. -/
def stripChars (l : List Char) : List Char :=
  ((l.dropWhile isWs).reverse.dropWhile isWs).reverse

/-- Python `s.strip()`. -/
def pyStrip (s : String) : String := ⟨stripChars s.data⟩

/-- Python `s.lower()` (ASCII letters). -/
def pyLower (s : String) : String := ⟨s.data.map Char.toLower⟩

/-- The single leading match of the regex in the source,
matching zero or more digits, an optional literal dot, then a run of
spaces or hash characters; the regex is anchored with a leading
anchor, so only this leading run is removed. -/
def dropNumbering (l : List Char) : List Char :=
  let l1 := l.dropWhile Char.isDigit
  let l2 := match l1 with
    | '.' :: r => r
    | other => other
  l2.dropWhile (fun c => c == ' ' || c == '#')

/-- `_clean_result_string` from the source: returns `""` on the empty
(falsy) string, otherwise strips the string and removes the leading
numbering run matched by the anchored regex. -/
def _clean_result_string (s : String) : String :=
  if s = "" then "" else ⟨dropNumbering (stripChars s.data)⟩

/-- A search/lookup record: a Python dict that may or may not carry the
keys used by the pipeline (accessed with a default via `dict.get`). -/
structure ResultItem where
  href : Option String
  body : Option String
deriving DecidableEq

/-- Outcome of the `ddgs.text(query, max_results=10)` call site: the
backend either raises (any exception, caught by the source) or returns
an iterator whose items are collected into a list (a missing iterator
is normalised to the empty list by the source before this point). -/
inductive DdgsOutcome where
  | raise : DdgsOutcome
  | ok : List ResultItem → DdgsOutcome
deriving DecidableEq

/-- Outcome of a `litellm.completion` call site: the backend either
raises (any exception, caught by the source) or yields the content
string of its first choice. -/
inductive LlmOutcome where
  | raise : LlmOutcome
  | ok : String → LlmOutcome
deriving DecidableEq

/-- The filter applied after cleaning: `r and r != '-' and r != ' - '`. -/
def keepLine (r : String) : Bool := !(r == "") && !(r == "-") && !(r == " - ")

/-- `f"{url} - {body}"` with the `dict.get` defaults of the call site. -/
def combineLine (defBody : String) (item : ResultItem) : String :=
  item.href.getD "#" ++ " - " ++ item.body.getD defBody

/-- Format, clean and filter a list of items: the parse/clean/filter
block shared by the structured branch and the DDGS branch of
`fetch_results` (they differ only in the default body placeholder). -/
def processItems (defBody : String) (items : List ResultItem) : List String :=
  (items.map (fun it => _clean_result_string (combineLine defBody it))).filter keepLine

/-- The message returned when the structured data was non-empty but all
lines were dropped by cleaning/filtering. -/
def noSpecificMsg (q : String) : String :=
  "No specific results found for '" ++ q ++ "', da! (Empty list from source after cleaning)"

/-- The sentinel returned when the DDGS call raises. -/
def ddgsFailMsg (q : String) : String :=
  "Ayyo, DDGS search failed for '" ++ q ++ "', da! The search engine is taking a chai break, macha!"

/-- The message returned when DDGS returned items but all lines were
dropped by cleaning/filtering. -/
def noValidMsg (q : String) : String :=
  "No valid results found from DDGS for '" ++ q ++ "', da! (All results were empty after cleaning)"

/-- The message returned when DDGS returned zero items. -/
def noResultsMsg (q : String) : String :=
  "No results found from DDGS for '" ++ q ++ "', da!"

/-- The DDGS fallback branch of `fetch_results` (the `else` arm and its
`try`/`except`). -/
def ddgs_fallback (ddgs : DdgsOutcome) (query : String) : List String :=
  match ddgs with
  | .raise => [ddgsFailMsg query]
  | .ok items =>
    if items.isEmpty then [noResultsMsg query]
    else
      let final := processItems "No snippet available, da!" items
      if final.isEmpty then [noValidMsg query] else final.take 10

/-- Result of `fetch_results`, with a flag recording whether control
reached the DDGS fallback branch (i.e. whether the search provider was
consulted). -/
structure FetchResult where
  lines : List String
  ddgsCalled : Bool
deriving DecidableEq

/-- `fetch_results`, parameterised by the value `specific_data` produced
by the structured lookup (`None`, or a dict whose `results` list is
given): the structured branch runs only when `specific_data` is truthy
and its `results` entry is a non-empty list. -/
def fetch_results_with (sd : Option (List ResultItem)) (ddgs : DdgsOutcome)
    (query : String) : FetchResult :=
  match sd with
  | some items =>
    if items.isEmpty then ⟨ddgs_fallback ddgs query, true⟩
    else
      let final := processItems "No description available, da!" items
      if final.isEmpty then ⟨[noSpecificMsg query], false⟩
      else ⟨final.take 10, false⟩
  | none => ⟨ddgs_fallback ddgs query, true⟩

/-- `_text_extract_json` from the source: the configured query `"cpu"`
(case-insensitively) raises a simulated `ValueError`, which the
function's own handler catches and converts to `None`; `"food"` returns
the two fixed items; every other query returns `None`.  Any unexpected
exception is likewise caught and converted to `None`, so the function
never raises to its caller. -/
def _text_extract_json (query : String) : Option (List ResultItem) :=
  if pyLower query = "cpu" then none
  else if pyLower query = "food" then
    some [⟨some "https://example.com/biryani", some "Best biryani in town, da!"⟩,
          ⟨some "https://example.com/dosa", some "Authentic masala dosa, super macha!"⟩]
  else none

/-- `fetch_results` from the source: structured lookup first, DDGS
fallback otherwise. -/
def fetch_results (ddgs : DdgsOutcome) (query : String) : FetchResult :=
  fetch_results_with (_text_extract_json query) ddgs query

/-- `p.startswith(s)` on character lists. -/
def listStarts : List Char → List Char → Bool
  | [], _ => true
  | _ :: _, [] => false
  | p :: ps, c :: cs => p == c && listStarts ps cs

/-- Python `s.startswith(pre)`. -/
def startsWith (pre s : String) : Bool := listStarts pre.data s.data

/-- Python `s.split(c)` for a single-character separator, on character
lists: `split` of the empty string is the one-element list `[""]`. -/
def splitNl : List Char → List (List Char)
  | [] => [[]]
  | c :: rest =>
    if c == '\n' then [] :: splitNl rest
    else
      match splitNl rest with
      | [] => [[c]]
      | h :: t => (c :: h) :: t

/-- Python `s.split('\n')`. -/
def pySplit (s : String) : List String := (splitNl s.data).map String.mk

/-- Truthiness of the configured credential `self.groq_api_key`:
`os.getenv` yields `None` when unset, and the empty string is falsy. -/
def keyOk (k : Option String) : Bool :=
  match k with
  | none => false
  | some s => !(s == "")

/-- The post-processing of the LLM translation response in
`translate_results`: strip the content, split on newlines, keep only
lines whose strip is non-empty, clean each kept line, then drop lines
that cleaned to empty or a bare dash. -/
def translatePipeline (content : String) : List String :=
  (((pySplit (pyStrip content)).filter (fun l => !(pyStrip l == ""))).map
      _clean_result_string).filter keepLine

/-- Result of `translate_results`, with a flag recording whether the
LLM completion backend was invoked. -/
structure TranslateResult where
  lines : List String
  llmCalled : Bool
deriving DecidableEq

/-- `translate_results` from the source: skip (returning the input
unchanged) when the credential is falsy, when the input is empty, or
when any input line starts with `"Ayyo"`; otherwise call the backend,
returning the cleaned response lines if any survive and the original
input on a raised exception or an empty cleaned response. -/
def translate_results (apiKey : Option String) (llm : LlmOutcome)
    (results : List String) (query : String) : TranslateResult :=
  if !(keyOk apiKey) then ⟨results, false⟩
  else if results.isEmpty || results.any (fun r => startsWith "Ayyo" r) then
    ⟨results, false⟩
  else
    match llm with
    | .raise => ⟨results, true⟩
    | .ok content =>
      let final := translatePipeline content
      if final.isEmpty then ⟨results, true⟩ else ⟨final, true⟩

/-- `generate_comment` from the source: a fixed fallback without a
credential, a fixed fallback when the backend raises, a fixed fallback
when the stripped response is empty, and otherwise the stripped
response. -/
def generate_comment (apiKey : Option String) (llm : LlmOutcome)
    (query : String) : String :=
  if !(keyOk apiKey) then "Ayyo, comment generation failed, macha! Need that API key!"
  else
    match llm with
    | .raise => "Ayyo, comment generation failed in this garam heat, da!"
    | .ok content =>
      let comment := pyStrip content
      if comment == "" then "Ayyo, my comment generator took a nap in this garam weather!"
      else comment

/-- The `{results, comment}` dictionary returned by `kickoff`. -/
structure KickoffResponse where
  results : List String
  comment : String
deriving DecidableEq

/-- `kickoff` from the source: generate the comment, fetch the results,
skip translation when the first fetched line starts with `"Ayyo"`, and
return the structured response.  The embedded components are total, so
the orchestrator-level exception handlers of the source (whose bodies
substitute fallback strings) are unreachable and the coercion of a
non-list `results` is the identity. -/
def kickoff (apiKey : Option String) (commentLlm transLlm : LlmOutcome)
    (ddgs : DdgsOutcome) (query : String) : KickoffResponse :=
  let comment := generate_comment apiKey commentLlm query
  let raw := (fetch_results ddgs query).lines
  let results :=
    match raw with
    | [] => (translate_results apiKey transLlm raw query).lines
    | r0 :: _ =>
      if startsWith "Ayyo" r0 then raw
      else (translate_results apiKey transLlm raw query).lines
  ⟨results, comment⟩

section Lemmas

/-- Whitespace characters are fixed points of `Char.toLower`. -/
theorem toLower_of_ws {c : Char} (h : isWs c = true) : Char.toLower c = c := by
  simp only [isWs, Bool.or_eq_true, beq_iff_eq] at h
  rcases h with ((((h | h) | h) | h) | h) | h <;> subst h <;> decide

/-- Dropping a predicate that holds of no element is the identity. -/
theorem dropWhile_all_false {l : List Char} (h : ∀ c ∈ l, isWs c = false) :
    l.dropWhile isWs = l := by
  cases l with
  | nil => rfl
  | cons a t => simp [List.dropWhile, h a (by simp)]

/-- Stripping a string without whitespace characters is the identity. -/
theorem stripChars_all_false {l : List Char} (h : ∀ c ∈ l, isWs c = false) :
    stripChars l = l := by
  unfold stripChars
  rw [dropWhile_all_false h, dropWhile_all_false (by simpa using h), List.reverse_reverse]

/-- If the lowercasing of a string is whitespace-free, so is the string,
and Python stripping leaves it unchanged. -/
theorem stripChars_eq_of_lower {q w : String} (hw : ∀ c ∈ w.data, isWs c = false)
    (h : pyLower q = w) : stripChars q.data = q.data := by
  apply stripChars_all_false
  intro c hc
  by_contra hW
  rw [Bool.not_eq_false] at hW
  have hmem : Char.toLower c ∈ q.data.map Char.toLower := List.mem_map_of_mem _ hc
  rw [show q.data.map Char.toLower = w.data from congrArg String.data h] at hmem
  rw [toLower_of_ws hW] at hmem
  exact absurd (hw c hmem) (by simp [hW])

/-- `startswith` is preserved by extending the subject on the right. -/
theorem listStarts_append_right (p : List Char) :
    ∀ l m : List Char, listStarts p l = true → listStarts p (l ++ m) = true := by
  induction p with
  | nil => intro l m _; rfl
  | cons a ps ih =>
    intro l m h
    cases l with
    | nil => simp [listStarts] at h
    | cons c cs =>
      simp only [listStarts, Bool.and_eq_true] at h
      simpa [listStarts, h.1] using ih cs m h.2

/-- `startswith` by a longer pattern implies `startswith` by any of its
prefixes. -/
theorem listStarts_of_append (p : List Char) :
    ∀ q s : List Char, listStarts (p ++ q) s = true → listStarts p s = true := by
  induction p with
  | nil => intro q s _; rfl
  | cons a ps ih =>
    intro q s h
    cases s with
    | nil => simp [listStarts] at h
    | cons c cs =>
      simp only [List.cons_append, listStarts, Bool.and_eq_true] at h ⊢
      exact ⟨h.1, ih q cs h.2⟩

/-- A head mismatch refutes `startswith`. -/
theorem listStarts_false_of_head {a b : Char} (ps cs : List Char)
    (h : (a == b) = false) : listStarts (a :: ps) (b :: cs) = false := by
  simp [listStarts, h]

/-- A line starting with the full sentinel marker `"Ayyo,"` starts with
the prefix `"Ayyo"` tested by the source. -/
theorem startsWith_ayyo_of_marker {r : String} (h : startsWith "Ayyo," r = true) :
    startsWith "Ayyo" r = true := by
  unfold startsWith at h ⊢
  have hd : ("Ayyo,").data = ("Ayyo").data ++ ([','] : List Char) := by decide
  rw [hd] at h
  exact listStarts_of_append _ _ _ h

/-- `_clean_result_string` is strip followed by removal of the leading
numbering run, on every input including the empty string. -/
theorem clean_data (s : String) :
    (_clean_result_string s).data = dropNumbering (stripChars s.data) := by
  by_cases h : s = ""
  · subst h; decide
  · simp [_clean_result_string, h]

/-- The cleaned string is a suffix of the stripped input. -/
theorem clean_suffix_strip (s : String) :
    (_clean_result_string s).data <:+ stripChars s.data := by
  rw [clean_data]
  unfold dropNumbering
  refine (List.dropWhile_suffix _).trans ?_
  have h2 : ∀ l1 : List Char,
      (match l1 with
        | '.' :: r => r
        | other => other) <:+ l1 := by
    intro l1
    split
    · exact List.suffix_cons '.' _
    · exact List.suffix_rfl
  exact (h2 _).trans (List.dropWhile_suffix _)

/-- The stripped character list is an infix of the original list. -/
theorem stripChars_contiguous (l : List Char) : stripChars l <:+: l := by
  unfold stripChars
  have h1 : (l.dropWhile isWs) <:+ l := List.dropWhile_suffix _
  have h2 : ((l.dropWhile isWs).reverse.dropWhile isWs).reverse <+: l.dropWhile isWs := by
    rw [← List.reverse_suffix, List.reverse_reverse]
    exact List.dropWhile_suffix _
  exact h2.isInfix.trans h1.isInfix

/-- Taking ten elements of a non-empty list is non-empty. -/
theorem take_ten_ne {α : Type} {l : List α} (h : l.isEmpty = false) :
    l.take 10 ≠ [] := by
  cases l with
  | nil => simp at h
  | cons a t => simp [List.take_eq_nil_iff]

/-- The provider-failure sentinel carries the `"Ayyo,"` marker. -/
theorem ddgsFailMsg_marker (q : String) : startsWith "Ayyo," (ddgsFailMsg q) = true := by
  unfold startsWith ddgsFailMsg
  rw [String.data_append, String.data_append]
  exact listStarts_append_right _ _ _ (listStarts_append_right _ _ _ (by decide))

/-- The zero-items message does not carry the `"Ayyo,"` marker. -/
theorem noResultsMsg_no_marker (q : String) :
    startsWith "Ayyo," (noResultsMsg q) = false := by
  unfold startsWith noResultsMsg
  rw [String.data_append, String.data_append]
  have h1 : ("No results found from DDGS for '").data =
      'N' :: ("o results found from DDGS for '").data := by decide
  have h2 : ("Ayyo,").data = 'A' :: ("yyo,").data := by decide
  rw [h1, h2, List.cons_append, List.cons_append]
  exact listStarts_false_of_head _ _ (by decide)

/-- The all-dropped-after-cleaning DDGS message does not carry the
`"Ayyo,"` marker. -/
theorem noValidMsg_no_marker (q : String) :
    startsWith "Ayyo," (noValidMsg q) = false := by
  unfold startsWith noValidMsg
  rw [String.data_append, String.data_append]
  have h1 : ("No valid results found from DDGS for '").data =
      'N' :: ("o valid results found from DDGS for '").data := by decide
  have h2 : ("Ayyo,").data = 'A' :: ("yyo,").data := by decide
  rw [h1, h2, List.cons_append, List.cons_append]
  exact listStarts_false_of_head _ _ (by decide)

/-- The empty-after-cleaning structured message does not carry the
`"Ayyo,"` marker. -/
theorem noSpecificMsg_no_marker (q : String) :
    startsWith "Ayyo," (noSpecificMsg q) = false := by
  unfold startsWith noSpecificMsg
  rw [String.data_append, String.data_append]
  have h1 : ("No specific results found for '").data =
      'N' :: ("o specific results found for '").data := by decide
  have h2 : ("Ayyo,").data = 'A' :: ("yyo,").data := by decide
  rw [h1, h2, List.cons_append, List.cons_append]
  exact listStarts_false_of_head _ _ (by decide)

/-- The DDGS fallback branch always yields a non-empty list. -/
theorem ddgs_fallback_ne (ddgs : DdgsOutcome) (q : String) :
    ddgs_fallback ddgs q ≠ [] := by
  cases ddgs with
  | raise => simp [ddgs_fallback]
  | ok items =>
    by_cases hi : items.isEmpty = true
    · simp [ddgs_fallback, hi]
    · by_cases hf : (processItems "No snippet available, da!" items).isEmpty = true
      · simp [ddgs_fallback, hi, hf]
      · have hff : (processItems "No snippet available, da!" items).isEmpty = false := by
          simpa using hf
        simpa [ddgs_fallback, hi, hf] using take_ten_ne hff

/-- `fetch_results` always yields a non-empty results list. -/
theorem fetch_lines_ne (sd : Option (List ResultItem)) (ddgs : DdgsOutcome)
    (q : String) : (fetch_results_with sd ddgs q).lines ≠ [] := by
  cases sd with
  | none => exact ddgs_fallback_ne ddgs q
  | some items =>
    by_cases hi : items.isEmpty = true
    · simpa [fetch_results_with, hi] using ddgs_fallback_ne ddgs q
    · by_cases hf : (processItems "No description available, da!" items).isEmpty = true
      · simp [fetch_results_with, hi, hf]
      · have hff : (processItems "No description available, da!" items).isEmpty = false := by
          simpa using hf
        simpa [fetch_results_with, hi, hf] using take_ten_ne hff

/-- `translate_results` yields a non-empty list on non-empty input. -/
theorem translate_lines_ne {apiKey : Option String} {llm : LlmOutcome}
    {results : List String} {q : String} (h : results ≠ []) :
    (translate_results apiKey llm results q).lines ≠ [] := by
  unfold translate_results
  split
  · exact h
  · split
    · exact h
    · cases llm with
      | raise => exact h
      | ok content =>
        dsimp only
        split
        · exact h
        · rename_i hf
          simpa using hf

/-- `generate_comment` never returns the empty string. -/
theorem generate_comment_ne (apiKey : Option String) (llm : LlmOutcome)
    (q : String) : generate_comment apiKey llm q ≠ "" := by
  unfold generate_comment
  split
  · decide
  · cases llm with
    | raise => decide
    | ok content =>
      dsimp only
      split
      · decide
      · rename_i hne
        simpa using hne

/-- A non-empty list has `isEmpty = false`. -/
theorem isEmpty_false_of_ne {α : Type} {l : List α} (h : l ≠ []) :
    l.isEmpty = false := by
  cases l with
  | nil => exact absurd rfl h
  | cons a t => rfl

end Lemmas

section Claims

/-- Claim C7 counterexample: the claim describes `clean` as removing
only one leading run, but the source strips surrounding whitespace
first, so `clean "x "` drops the trailing space and differs from the
claimed output `"x "`. -/
theorem C7_counterexample :
    _clean_result_string "x " ≠ "x " ∧ _clean_result_string "x " = "x" := by decide

/-- Claim C7 (amended): `clean` is total; it first strips leading and
trailing whitespace and then removes exactly one leading run of zero or
more digits, an optional literal period and a run of space or hash
characters; it returns the empty string on empty or whitespace-only
input; and the four quoted examples hold. -/
theorem C7_clean_amended (s : String) :
    (_clean_result_string s).data = dropNumbering (stripChars s.data)
    ∧ (stripChars s.data = [] → _clean_result_string s = "")
    ∧ _clean_result_string "1. https://x - y" = "https://x - y"
    ∧ _clean_result_string "2. #https://x - y" = "https://x - y"
    ∧ _clean_result_string "" = ""
    ∧ _clean_result_string "no-prefix text" = "no-prefix text" := by
  refine ⟨clean_data s, ?_, by decide, by decide, by decide, by decide⟩
  intro h
  have hd : (_clean_result_string s).data = ("" : String).data := by
    rw [clean_data, h]; rfl
  exact String.ext hd

/-- Witness for C7: a whitespace-only input cleans to the empty string. -/
theorem C7_clean_amended_witness :
    stripChars ("  " : String).data = [] ∧ _clean_result_string "  " = "" :=
  ⟨by decide, (C7_clean_amended "  ").2.1 (by decide)⟩

/-- Claim C8 counterexample: the output of `clean` is not always a
suffix of the input, because the input is stripped first: on `"y "` the
output `"y"` is not a suffix of `"y "`. -/
theorem C8_counterexample :
    _clean_result_string "y " = "y"
    ∧ List.isSuffixOf (_clean_result_string "y ").data ("y " : String).data = false := by
  decide

/-- Claim C8 (amended): the output of `clean` is a suffix of the
whitespace-stripped input (and hence a contiguous infix of the input):
everything after the removed leading run of the stripped string is
preserved unchanged. -/
theorem C8_clean_suffix (s : String) :
    (_clean_result_string s).data <:+ stripChars s.data
    ∧ (_clean_result_string s).data <:+: s.data :=
  ⟨clean_suffix_strip s, (clean_suffix_strip s).isInfix.trans (stripChars_contiguous s.data)⟩

/-- Claim C2 counterexample: with a non-empty structured item list
whose only formatted line is dropped by cleaning, `fetch_results`
returns its "no specific results" message without consulting the search
provider, even though the provider has a live result available. -/
theorem C2_counterexample :
    ([(⟨some "#", some ""⟩ : ResultItem)] ≠ []
      ∧ processItems "No description available, da!" [⟨some "#", some ""⟩] = [])
    ∧ (fetch_results_with (some [⟨some "#", some ""⟩])
        (DdgsOutcome.ok [⟨some "https://live.example", some "live result"⟩])
        "q").ddgsCalled = false := by decide

/-- Claim C2 (amended): when the structured lookup yields a non-empty
item list but every formatted line is dropped by cleaning/filtering,
`fetch_results` returns the single-element "no specific results"
message and does not call the search provider. -/
theorem C2_structured_empty_no_provider (items : List ResultItem)
    (ddgs : DdgsOutcome) (q : String) (hne : items ≠ [])
    (hclean : processItems "No description available, da!" items = []) :
    fetch_results_with (some items) ddgs q = ⟨[noSpecificMsg q], false⟩ := by
  have hi : items.isEmpty = false := isEmpty_false_of_ne hne
  simp [fetch_results_with, hi, hclean]

/-- Witness for C2 (amended): a concrete structured item whose line
cleans away yields the "no specific results" message. -/
theorem C2_structured_empty_no_provider_witness :
    fetch_results_with (some [⟨some "#", some ""⟩]) DdgsOutcome.raise "biryani" =
      ⟨[noSpecificMsg "biryani"], false⟩ :=
  C2_structured_empty_no_provider _ _ _ (by decide) (by decide)

/-- Claim C3 counterexample: the degraded "no results" list returned by
`fetch_results` does not begin with the sentinel marker `"Ayyo,"`. -/
theorem C3_counterexample :
    (fetch_results_with none (DdgsOutcome.ok []) "chai").lines =
      ["No results found from DDGS for 'chai', da!"]
    ∧ startsWith "Ayyo," "No results found from DDGS for 'chai', da!" = false := by
  decide

/-- Claim C3 (amended): of the four degraded single-element lists
returned by `fetch_results`, only the provider-failure sentinel begins
with the marker `"Ayyo,"`; the "no results", "no valid results" and
empty-after-cleaning structured messages do not carry the marker (they
begin with `"No"`), so the orchestrator and translator send them to
translation. -/
theorem C3_sentinel_markers (q : String) (ddgs : DdgsOutcome) :
    ((fetch_results_with none DdgsOutcome.raise q).lines = [ddgsFailMsg q]
      ∧ startsWith "Ayyo," (ddgsFailMsg q) = true)
    ∧ ((fetch_results_with none (DdgsOutcome.ok []) q).lines = [noResultsMsg q]
      ∧ startsWith "Ayyo," (noResultsMsg q) = false)
    ∧ ((fetch_results_with none (DdgsOutcome.ok [⟨some "#", some ""⟩]) q).lines =
        [noValidMsg q]
      ∧ startsWith "Ayyo," (noValidMsg q) = false)
    ∧ (fetch_results_with (some [⟨some "#", some ""⟩]) ddgs q =
        ⟨[noSpecificMsg q], false⟩
      ∧ startsWith "Ayyo," (noSpecificMsg q) = false) := by
  exact ⟨⟨rfl, ddgsFailMsg_marker q⟩, ⟨rfl, noResultsMsg_no_marker q⟩,
    ⟨rfl, noValidMsg_no_marker q⟩, ⟨rfl, noSpecificMsg_no_marker q⟩⟩

/-- Claim C4: the search provider is consulted only when the structured
lookup yields nothing usable (lookup returned `None`/raised, or its
`results` list is empty); whenever the structured lookup yields at
least one usable line after cleaning, the first ten of those lines are
returned and the provider is not consulted; and for the configured
simulated-failure query `"cpu"` (whose `ValueError` the lookup catches
itself and converts to `None`, as it does for any unexpected exception)
`fetch_results` falls through entirely to the provider branch, so the
structured failure is never a final result. -/
theorem C4_structured_priority (sd : Option (List ResultItem))
    (ddgs : DdgsOutcome) (q : String) :
    ((fetch_results_with sd ddgs q).ddgsCalled = true → sd = none ∨ sd = some [])
    ∧ (∀ items, sd = some items →
        processItems "No description available, da!" items ≠ [] →
        fetch_results_with sd ddgs q =
          ⟨(processItems "No description available, da!" items).take 10, false⟩)
    ∧ (pyLower q = "cpu" →
        _text_extract_json q = none
        ∧ fetch_results ddgs q = ⟨ddgs_fallback ddgs q, true⟩) := by
  refine ⟨?_, ?_, ?_⟩
  · intro h
    cases sd with
    | none => exact Or.inl rfl
    | some items =>
      by_cases hi : items.isEmpty = true
      · exact Or.inr (by rw [List.isEmpty_iff.mp hi])
      · exfalso
        by_cases hf : (processItems "No description available, da!" items).isEmpty = true
        · simp [fetch_results_with, hi, hf] at h
        · simp [fetch_results_with, hi, hf] at h
  · intro items hsd hne
    subst hsd
    have hitems : items ≠ [] := by
      intro h0
      subst h0
      exact hne rfl
    have hf : (processItems "No description available, da!" items).isEmpty = false :=
      isEmpty_false_of_ne hne
    simp [fetch_results_with, isEmpty_false_of_ne hitems, hf]
  · intro hq
    have hj : _text_extract_json q = none := by simp [_text_extract_json, hq]
    exact ⟨hj, by simp [fetch_results, hj, fetch_results_with]⟩

/-- Witness for C4: each conjunct discharged at a concrete input: a
provider call forced by an empty structured list, a structured hit
returned without a provider call, and the `"cpu"` query (in upper case)
falling through to the provider. -/
theorem C4_structured_priority_witness :
    (some ([] : List ResultItem) = none ∨ some ([] : List ResultItem) = some [])
    ∧ fetch_results_with (some [⟨some "https://example.com/biryani",
          some "Best biryani in town, da!"⟩]) DdgsOutcome.raise "food" =
        ⟨(processItems "No description available, da!"
            [⟨some "https://example.com/biryani", some "Best biryani in town, da!"⟩]).take 10,
          false⟩
    ∧ (_text_extract_json "CPU" = none
        ∧ fetch_results DdgsOutcome.raise "CPU" =
            ⟨ddgs_fallback DdgsOutcome.raise "CPU", true⟩) := by
  refine ⟨(C4_structured_priority (some []) (DdgsOutcome.ok []) "q").1 (by decide),
    (C4_structured_priority (some [⟨some "https://example.com/biryani",
        some "Best biryani in town, da!"⟩]) DdgsOutcome.raise "food").2.1 _ rfl (by decide),
    (C4_structured_priority none DdgsOutcome.raise "CPU").2.2 (by decide)⟩

/-- Claim C5: when the credential is unconfigured (or falsy), or some
input line begins with the sentinel marker `"Ayyo,"`, `translate_results`
returns its input unchanged and does not invoke the completion
backend. -/
theorem C5_translate_skip (apiKey : Option String) (llm : LlmOutcome)
    (lines : List String) (q : String)
    (h : keyOk apiKey = false ∨ lines.any (fun r => startsWith "Ayyo," r) = true) :
    translate_results apiKey llm lines q = ⟨lines, false⟩ := by
  rcases h with h | h
  · simp [translate_results, h]
  · have hA : lines.any (fun r => startsWith "Ayyo" r) = true := by
      rw [List.any_eq_true] at h ⊢
      obtain ⟨r, hr, hm⟩ := h
      exact ⟨r, hr, startsWith_ayyo_of_marker hm⟩
    by_cases hk : keyOk apiKey = true
    · simp [translate_results, hk, hA]
    · have hk' : keyOk apiKey = false := by simpa using hk
      simp [translate_results, hk']

/-- Witness for C5: a sentinel line suppresses translation. -/
theorem C5_translate_skip_witness :
    translate_results (some "key") (LlmOutcome.ok "anything")
        ["Ayyo, DDGS search failed for 'x', da!"] "x" =
      ⟨["Ayyo, DDGS search failed for 'x', da!"], false⟩ :=
  C5_translate_skip _ _ _ _ (Or.inr (by decide))

/-- Claim C6: for non-empty input, `translate_results` returns the
input unchanged when the backend raises and when the cleaned response
is empty, and (being a total function of the backend outcome, so it
never raises) always returns a non-empty list. -/
theorem C6_translate_fallback (apiKey : Option String) (lines : List String)
    (q content : String) (llm : LlmOutcome) (h : lines ≠ []) :
    (translate_results apiKey LlmOutcome.raise lines q).lines = lines
    ∧ (translatePipeline content = [] →
        (translate_results apiKey (LlmOutcome.ok content) lines q).lines = lines)
    ∧ (translate_results apiKey llm lines q).lines ≠ [] := by
  refine ⟨?_, ?_, translate_lines_ne h⟩
  · unfold translate_results
    split
    · rfl
    · split
      · rfl
      · rfl
  · intro hp
    unfold translate_results
    split
    · rfl
    · split
      · rfl
      · dsimp only
        simp [hp]

/-- Witness for C6: a raising backend and a whitespace-only response
both fall back to the original single line. -/
theorem C6_translate_fallback_witness :
    (translate_results (some "key") LlmOutcome.raise ["https://a - b"] "q").lines =
      ["https://a - b"]
    ∧ (translate_results (some "key") (LlmOutcome.ok " \n ") ["https://a - b"] "q").lines =
      ["https://a - b"]
    ∧ (translate_results (some "key") (LlmOutcome.ok "zz") ["https://a - b"] "q").lines ≠
      [] := by
  have h1 := C6_translate_fallback (some "key") ["https://a - b"] "q" " \n "
    LlmOutcome.raise (by decide)
  have h2 := C6_translate_fallback (some "key") ["https://a - b"] "q" " \n "
    (LlmOutcome.ok "zz") (by decide)
  exact ⟨h1.1, h1.2.1 (by decide), h2.2.2⟩

/-- A completion response with eleven result lines, each of which
survives cleaning and filtering. -/
def elevenLines : String :=
  "u1 - v\nu2 - v\nu3 - v\nu4 - v\nu5 - v\nu6 - v\nu7 - v\nu8 - v\nu9 - v\nuA - v\nuB - v"

/-- Claim C9: the ten-item cap lives only inside `fetch_results` and is
not re-applied after translation: a one-line input together with an
eleven-line backend response makes `translate_results` return more than
ten lines, and `kickoff` passes that list through as `results` without
truncation. -/
theorem C9_no_recap :
    10 < (translate_results (some "key") (LlmOutcome.ok elevenLines)
        ["https://a.example - b"] "q").lines.length
    ∧ 10 < (kickoff (some "key") (LlmOutcome.ok "nice") (LlmOutcome.ok elevenLines)
        (DdgsOutcome.ok [⟨some "https://a.example", some "b"⟩]) "q").results.length := by
  decide

/-- Claim C10: structured-lookup matching lowercases the query but does
not strip it, so a query equal to a configured key up to letter case
that carries surrounding whitespace misses the lookup and
`fetch_results` proceeds to the provider branch. -/
theorem C10_whitespace_sensitive (q : String) (ddgs : DdgsOutcome)
    (hws : stripChars q.data ≠ q.data)
    (hkey : pyLower (pyStrip q) = "food" ∨ pyLower (pyStrip q) = "cpu") :
    _text_extract_json q = none ∧ (fetch_results ddgs q).ddgsCalled = true := by
  have hfood : pyLower q ≠ "food" := fun h => hws (stripChars_eq_of_lower (by decide) h)
  have hcpu : pyLower q ≠ "cpu" := fun h => hws (stripChars_eq_of_lower (by decide) h)
  have hj : _text_extract_json q = none := by simp [_text_extract_json, hfood, hcpu]
  exact ⟨hj, by simp [fetch_results, hj, fetch_results_with]⟩

/-- Witness for C10: the query `" food"` misses the structured lookup
and reaches the provider. -/
theorem C10_whitespace_sensitive_witness :
    _text_extract_json " food" = none
    ∧ (fetch_results (DdgsOutcome.ok []) " food").ddgsCalled = true :=
  C10_whitespace_sensitive " food" (DdgsOutcome.ok []) (by decide) (Or.inl (by decide))

/-- Claim C1: for every query and every behaviour of the backends (the
credential, the comment and translation completion calls, and the
search provider — reachable or raising), `kickoff` returns a response
whose `results` list has length at least one and whose `comment` is
non-empty; the embedded `kickoff` is a total function of these
parameters, so no exception reaches its caller. -/
theorem C1_kickoff_total (apiKey : Option String)
    (commentLlm transLlm : LlmOutcome) (ddgs : DdgsOutcome) (q : String) :
    1 ≤ (kickoff apiKey commentLlm transLlm ddgs q).results.length
    ∧ (kickoff apiKey commentLlm transLlm ddgs q).comment ≠ "" := by
  constructor
  · have hraw : (fetch_results ddgs q).lines ≠ [] := fetch_lines_ne _ _ _
    unfold kickoff
    dsimp only
    cases hr : (fetch_results ddgs q).lines with
    | nil => exact absurd hr hraw
    | cons r0 rest =>
      dsimp only
      by_cases hA : startsWith "Ayyo" r0 = true
      · simp [hA]
      · have ht : (translate_results apiKey transLlm (r0 :: rest) q).lines ≠ [] :=
          translate_lines_ne (by simp)
        simp only [hA, if_false, Bool.false_eq_true]
        exact List.length_pos.mpr ht
  · exact generate_comment_ne apiKey commentLlm q

end Claims
